import Mathlib

/-!
Verification development for the port-killer repository.

The definitions below are a shallow embedding of the Rust sources:

* `src/backend/core/src/killer.rs`            — `ProcessKiller`
* `src/backend/core/src/models/port_filter.rs` — `PortFilter`, `filter_ports`
* `src/backend/cli/src/tui/app.rs`            — `App` (interactive session state)
* `src/backend/cli/src/tui/mod.rs`            — `run_app` (control loop step)

Effects are made explicit: the response of the operating system to a signal, the
scanner result, and the config store results are oracle inputs; time
(`Instant`) is a natural number of milliseconds; fallible Rust functions
returning `Result` become Lean functions returning `Except`.

A few leaf types (`PortInfo`, `ProcessType`, `WatchedPort`, the core `Error`
enum) live in repository files that are not part of the provided sources;
those definitions are modelled from the specification and are marked as such
in their doc comments.
-/

/-- Substring prefix test on character lists: `leadMatch sub s` is true when
`sub` is an initial segment of `s`.  Helper for modelling Rust
`str::contains`. -/
def leadMatch : List Char → List Char → Bool
  | [], _ => true
  | _ :: _, [] => false
  | c :: cs, d :: ds => c == d && leadMatch cs ds

/-- Substring containment on character lists: true when `sub` occurs
contiguously somewhere in the second list. -/
def containsChars (sub : List Char) : List Char → Bool
  | [] => leadMatch sub []
  | c :: rest => leadMatch sub (c :: rest) || containsChars sub rest

/-- Model of Rust `str::contains`: `strContains s sub` is true when `sub` is a
contiguous substring of `s` (the empty string is contained in everything). -/
def strContains (s sub : String) : Bool := containsChars sub.data s.data

/-- ASCII lowercasing of one character, modelling the effect of Rust
`str::to_lowercase` on the ASCII range. -/
def lowerChar (c : Char) : Char :=
  if 65 ≤ c.toNat && c.toNat ≤ 90 then Char.ofNat (c.toNat + 32) else c

/-- Model of Rust `str::to_lowercase` (ASCII range). -/
def strLower (s : String) : String := ⟨s.data.map lowerChar⟩

/-- Modelled from the spec: the core error enum (`error.rs` is not among the
provided sources; constructors follow the error taxonomy of spec section 7 and
the variants used in `killer.rs`: `PermissionDenied`, `KillFailed` with pid
and reason, `CommandFailed`, plus scanner/config kinds). -/
inductive Error where
  | PermissionDenied (msg : String)
  | KillFailed (pid : Nat) (reason : String)
  | CommandFailed (msg : String)
  | UnsupportedPlatform (msg : String)
  | ConfigError (msg : String)
deriving DecidableEq

/-- Modelled from the spec: the user-facing rendering of an error (the
`Display` impl lives in the missing `error.rs`); the reason text is
preserved, per spec section 7 ("reason string preserved"). -/
def Error.message : Error → String
  | .PermissionDenied m => m
  | .KillFailed _ reason => reason
  | .CommandFailed m => m
  | .UnsupportedPlatform m => m
  | .ConfigError m => m

/-- Unix signals used by `ProcessKiller` (killer.rs, unix variant). -/
inductive Signal where
  | SIGTERM
  | SIGKILL
deriving DecidableEq

/-- Outcome of the `nix` `kill(2)` wrapper for one signal send: accepted,
`ESRCH` (no such process), `EPERM` (permission denied), or any other errno
rendered as a string (killer.rs lines 55-69). -/
inductive SignalOutcome where
  | accepted
  | esrch
  | eperm
  | errnoOther (e : String)
deriving DecidableEq

/-- Observable effects of the kill protocol, used to state in which order
signals are sent and whether the grace-period sleep happened. -/
inductive KillEvent where
  | signalSent (pid : Nat) (s : Signal)
  | slept (ms : Nat)
deriving DecidableEq

/-- The signal selected by `kill` from the `force` flag (killer.rs lines
47-51): SIGKILL when `force`, otherwise SIGTERM. -/
def sigOf (force : Bool) : Signal := if force then Signal.SIGKILL else Signal.SIGTERM

/-- ProcessKiller state: only the configured grace period, in milliseconds
(killer.rs lines 14-17). -/
structure ProcessKiller where
  grace_period : Nat
deriving DecidableEq

/-- killer.rs `ProcessKiller::new`: default grace period 500 ms. -/
def ProcessKiller.new : ProcessKiller := ⟨500⟩

/-- killer.rs `ProcessKiller::with_grace_period`. -/
def ProcessKiller.with_grace_period (g : Nat) : ProcessKiller := ⟨g⟩

/-- killer.rs `ProcessKiller::kill` (unix variant, lines 43-70): sends
SIGKILL or SIGTERM according to `force`; `Ok true` when the OS accepted the
signal, `Ok false` on ESRCH (process absent, treated as success),
`PermissionDenied` on EPERM, `KillFailed` with the errno text otherwise.
The OS response is the oracle `os`. -/
def ProcessKiller.kill (os : Nat → Signal → SignalOutcome) (pid : Nat) (force : Bool) :
    Except Error Bool :=
  match os pid (sigOf force) with
  | .accepted => .ok true
  | .esrch => .ok false
  | .eperm => .error (.PermissionDenied ("Permission denied to kill process " ++ toString pid))
  | .errnoOther e => .error (.KillFailed pid e)

/-- Captured output of an external command: exit-status success flag and
stderr text (killer.rs windows variant, lines 77-85). -/
structure CmdOutput where
  status_success : Bool
  stderr : String
deriving DecidableEq

/-- The argument list the windows `kill` passes to `taskkill` (killer.rs line
78): always `/F`, independent of the `force` flag. -/
def taskkillArgs (pid : Nat) : List String := ["/F", "/PID", toString pid]

/-- killer.rs `ProcessKiller::kill` (windows variant, lines 73-95): runs
`taskkill /F /PID pid` (the `force` flag is ignored — the parameter is
`_force` in the source); a launch failure maps to `CommandFailed`; a
successful exit maps to `Ok true`; a failing exit maps to `Ok false` when
stderr contains "not found" or "No such process" and to `KillFailed` with
the stderr text otherwise.  The behaviour of the tool is the oracle `run`. -/
def ProcessKiller.kill_windows (run : List String → Except String CmdOutput)
    (pid : Nat) (_force : Bool) : Except Error Bool :=
  match run (taskkillArgs pid) with
  | .error e => .error (.CommandFailed ("Failed to run taskkill: " ++ e))
  | .ok out =>
    if out.status_success then .ok true
    else if strContains out.stderr "not found" || strContains out.stderr "No such process" then
      .ok false
    else .error (.KillFailed pid out.stderr)

/-- killer.rs `ProcessKiller::kill_gracefully` (lines 117-128): stage 1 sends
SIGTERM via `kill`; an error there propagates immediately (the `?`
operator).  When stage 1 returns `Ok true` the grace period is slept; stage 2
then sends SIGKILL unconditionally and its result is returned.  The second
component is the trace of emitted effects, in order. -/
def ProcessKiller.kill_gracefully (k : ProcessKiller) (os : Nat → Signal → SignalOutcome)
    (pid : Nat) : Except Error Bool × List KillEvent :=
  match ProcessKiller.kill os pid false with
  | .error e => (.error e, [KillEvent.signalSent pid Signal.SIGTERM])
  | .ok graceful_result =>
    let waits := if graceful_result then [KillEvent.slept k.grace_period] else []
    (ProcessKiller.kill os pid true,
      KillEvent.signalSent pid Signal.SIGTERM :: (waits ++ [KillEvent.signalSent pid Signal.SIGKILL]))

/-- Modelled from the spec: process classification (`process_type.rs` is not
among the provided sources).  Spec section 3 names the classes web server,
database, language runtime and unknown. -/
inductive ProcessType where
  | WebServer
  | Database
  | LanguageRuntime
  | Unknown
deriving DecidableEq

/-- Modelled from the spec: `ProcessType::ALL`, the full list of known
process types (referenced by `port_filter.rs` lines 41-43 and 69; by spec
section 3 the default filter holds "the full set of known types"). -/
def ProcessType.ALL : List ProcessType :=
  [ProcessType.WebServer, ProcessType.Database, ProcessType.LanguageRuntime, ProcessType.Unknown]

instance : Fintype ProcessType :=
  ⟨ProcessType.ALL.toFinset, by intro x; cases x <;> decide⟩

/-- Modelled from the spec: one normalized listening-port record
(`port_info.rs` is not among the provided sources).  Fields follow spec
section 3 and the positional constructor used by the tests in
`port_filter.rs` (port, pid, process name, bind address, user, command,
file-descriptor tag).  Ports and pids are machine integers modelled as
naturals. -/
structure PortInfo where
  port : Nat
  pid : Nat
  process_name : String
  address : String
  user : String
  command : String
  fd : String
deriving DecidableEq

/-- Modelled from the spec: `PortInfo::matches_search` (in the missing
`port_info.rs`), per spec section 4.3 — case-insensitive substring match of
the query against process name, port rendered in decimal, and full command;
true when the query occurs in any of the three. -/
def PortInfo.matches_search (p : PortInfo) (query : String) : Bool :=
  let q := strLower query
  strContains (strLower p.process_name) q
    || strContains (toString p.port) q
    || strContains (strLower p.command) q

/-- Modelled from the spec: derived `process_type` classification (in the
missing `process_type.rs`), a fixed lookup over the process name per spec
sections 3 and 8 (nginx classifies as a web server, postgres as a database,
node and java as language runtimes, everything else as unknown). -/
def PortInfo.process_type (p : PortInfo) : ProcessType :=
  if p.process_name = "nginx" then ProcessType.WebServer
  else if p.process_name = "postgres" then ProcessType.Database
  else if p.process_name = "node" || p.process_name = "java" then ProcessType.LanguageRuntime
  else ProcessType.Unknown

/-- Modelled from the spec: a watched-port record (`watched_port.rs` is not
among the provided sources); spec section 3 gives its fields. -/
structure WatchedPort where
  port : Nat
  notify_on_start : Bool
  notify_on_stop : Bool
deriving DecidableEq

/-- port_filter.rs lines 14-39: the filter value object.  The Rust
`HashSet`s become `Finset`s; the optional inclusive port bounds keep their
`Option` shape. -/
structure PortFilter where
  search_text : String
  min_port : Option Nat
  max_port : Option Nat
  process_types : Finset ProcessType
  show_only_favorites : Bool
  show_only_watched : Bool
deriving DecidableEq

/-- port_filter.rs lines 41-43: `all_process_types`, the full set collected
from `ProcessType::ALL`. -/
def all_process_types : Finset ProcessType := ProcessType.ALL.toFinset

/-- port_filter.rs lines 45-56: `Default for PortFilter`. -/
def PortFilter.default : PortFilter :=
  { search_text := ""
    min_port := none
    max_port := none
    process_types := all_process_types
    show_only_favorites := false
    show_only_watched := false }

/-- port_filter.rs lines 59-62: `PortFilter::new` is the default value. -/
def PortFilter.new : PortFilter := PortFilter.default

/-- port_filter.rs lines 65-72: `PortFilter::is_active` — any non-empty
search text, present bound, process-type set smaller than `ALL`, or set
boolean makes the filter active. -/
def PortFilter.is_active (f : PortFilter) : Bool :=
  !f.search_text.isEmpty
    || f.min_port.isSome
    || f.max_port.isSome
    || decide (f.process_types.card < ProcessType.ALL.length)
    || f.show_only_favorites
    || f.show_only_watched

/-- port_filter.rs lines 80-119: `PortFilter::matches`, the early-return
criterion chain in source order: search text, minimum bound, maximum bound,
process type, favorites-only, watched-only. -/
def PortFilter.matches (f : PortFilter) (p : PortInfo) (favorites : Finset Nat)
    (watched : List WatchedPort) : Bool :=
  if !f.search_text.isEmpty && !(p.matches_search f.search_text) then false
  else if (match f.min_port with
           | some minP => decide (p.port < minP)
           | none => false) then false
  else if (match f.max_port with
           | some maxP => decide (maxP < p.port)
           | none => false) then false
  else if !(decide (f.process_types = ∅)) && !(decide (p.process_type ∈ f.process_types)) then
    false
  else if f.show_only_favorites && !(decide (p.port ∈ favorites)) then false
  else if f.show_only_watched && !(watched.any (fun w => w.port == p.port)) then false
  else true

/-- port_filter.rs lines 121-124: `PortFilter::reset` replaces the value
with the default. -/
def PortFilter.reset (_f : PortFilter) : PortFilter := PortFilter.default

/-- port_filter.rs lines 159-170: `filter_ports` keeps exactly the records
accepted by `matches`, in input order. -/
def filter_ports (ports : List PortInfo) (filter : PortFilter) (favorites : Finset Nat)
    (watched : List WatchedPort) : List PortInfo :=
  ports.filter (fun p => filter.matches p favorites watched)

/-- app.rs lines 9-21: the interactive session aggregate.  `Instant`s become
milliseconds (`Nat`); the scanner and config collaborators are external, so
only the killer configuration is part of the state. -/
structure App where
  ports : List PortInfo
  favorites : Finset Nat
  watched : Finset Nat
  selected : Nat
  search_query : String
  searching : Bool
  status_message : Option (String × Nat)
  last_refresh : Nat
  killer : ProcessKiller
deriving DecidableEq

/-- app.rs lines 49-63: `App::filtered_ports` — with an empty query the full
table, otherwise the records whose lowercased process name, decimal port or
lowercased command contains the lowercased query. -/
def App.filtered_ports (a : App) : List PortInfo :=
  if a.search_query.isEmpty then a.ports
  else
    let query := strLower a.search_query
    a.ports.filter (fun p =>
      strContains (strLower p.process_name) query
        || strContains (toString p.port) query
        || strContains (strLower p.command) query)

/-- app.rs lines 65-68: `App::selected_port` — the record at index
`selected` of the filtered view, if any. -/
def App.selected_port (a : App) : Option PortInfo :=
  a.filtered_ports.get? a.selected

/-- app.rs lines 70-75: `App::next` — advance the selection modulo the
filtered length; no-op when the view is empty. -/
def App.next (a : App) : App :=
  if 0 < a.filtered_ports.length then
    { a with selected := (a.selected + 1) % a.filtered_ports.length }
  else a

/-- app.rs lines 77-82: `App::previous` — `checked_sub(1).unwrap_or(len-1)`:
retreating from 0 wraps to the end; no-op when the view is empty. -/
def App.previous (a : App) : App :=
  if 0 < a.filtered_ports.length then
    { a with selected :=
        if a.selected = 0 then a.filtered_ports.length - 1 else a.selected - 1 }
  else a

/-- app.rs lines 84-86: `App::first` — unconditionally selects index 0. -/
def App.first (a : App) : App := { a with selected := 0 }

/-- app.rs lines 88-93: `App::last` — selects the final index; no-op when
the view is empty. -/
def App.last (a : App) : App :=
  if 0 < a.filtered_ports.length then
    { a with selected := a.filtered_ports.length - 1 }
  else a

/-- app.rs lines 193-195: `App::set_status` stores the text with the current
time. -/
def App.set_status (a : App) (msg : String) (now : Nat) : App :=
  { a with status_message := some (msg, now) }

/-- app.rs lines 197-205: `App::get_status` — the stored text while its age
is strictly under 3 seconds (3000 ms), `none` afterwards; a pure read that
never modifies the stored message. -/
def App.get_status (a : App) (now : Nat) : Option String :=
  match a.status_message with
  | none => none
  | some (msg, t) => if now - t < 3000 then some msg else none

/-- app.rs lines 112-114: `App::should_refresh` — strictly more than 5
seconds since the last refresh. -/
def App.should_refresh (a : App) (now : Nat) : Bool :=
  decide (5000 < now - a.last_refresh)

/-- app.rs lines 95-110: `App::refresh`.  The scanner result and the two
config reads are oracle inputs; each propagates its error (the `?`
operator).  On success the table and snapshots are replaced, the refresh
time recorded, the selection clamped by `clampSelection`, and the status
set to "Refreshed".  `withScan` is the table/snapshot replacement step
(app.rs lines 96-100). -/
def App.withScan (a : App) (newPorts : List PortInfo) (newFavs : Finset Nat)
    (wl : List WatchedPort) (now : Nat) : App :=
  { a with
    ports := newPorts
    favorites := newFavs
    watched := (wl.map WatchedPort.port).toFinset
    last_refresh := now }

/-- app.rs lines 102-107 of `App::refresh`: the selection is moved to
`len - 1` only when it is out of range and the new filtered view is
non-empty (the source comment says "Ensure selected is within bounds", but
nothing moves the cursor when the view is empty). -/
def clampSelection (b : App) : App :=
  if b.selected ≥ b.filtered_ports.length ∧ b.filtered_ports.length > 0 then
    { b with selected := b.filtered_ports.length - 1 }
  else b

def App.refresh (a : App) (scan : Except Error (List PortInfo))
    (favs : Except Error (Finset Nat)) (watchedL : Except Error (List WatchedPort))
    (now : Nat) : Except Error App :=
  match scan with
  | .error e => .error e
  | .ok newPorts =>
    match favs with
    | .error e => .error e
    | .ok newFavs =>
      match watchedL with
      | .error e => .error e
      | .ok wl =>
        .ok ((clampSelection (a.withScan newPorts newFavs wl now)).set_status "Refreshed" now)

/-- Oracle inputs consumed by one control-loop iteration: the OS response to
signals (for `kill_gracefully`), the scanner result, the two config reads
used by `refresh`, the result of a config add/remove intent, and the current
time. -/
structure StepOracle where
  os : Nat → Signal → SignalOutcome
  scan : Except Error (List PortInfo)
  favs : Except Error (Finset Nat)
  watchedL : Except Error (List WatchedPort)
  configOp : Except Error Unit
  now : Nat

/-- app.rs lines 116-136: `App::kill_selected`.  No selection: no-op.
Otherwise `kill_gracefully` on the selected pid: `Ok true` sets a "Killed
..." status and triggers a `refresh` whose error propagates (the `?` on line
125); `Ok false` sets an "already terminated" status; a kill error is caught
and rendered into a "Failed to kill" status — it does not propagate. -/
def App.kill_selected (a : App) (o : StepOracle) : Except Error App :=
  match a.selected_port with
  | none => .ok a
  | some p =>
    match (a.killer.kill_gracefully o.os p.pid).1 with
    | .ok true =>
      (a.set_status ("Killed " ++ p.process_name ++ " on port " ++ toString p.port) o.now).refresh
        o.scan o.favs o.watchedL o.now
    | .ok false =>
      .ok (a.set_status ("Process " ++ toString p.pid ++ " already terminated") o.now)
    | .error e =>
      .ok (a.set_status ("Failed to kill: " ++ e.message) o.now)

/-- app.rs lines 138-152: `App::toggle_favorite`.  The config add/remove
intent error propagates (the `?` operators); on success the snapshot set
is updated and a status message set. -/
def App.toggle_favorite (a : App) (o : StepOracle) : Except Error App :=
  match a.selected_port with
  | none => .ok a
  | some p =>
    if p.port ∈ a.favorites then
      match o.configOp with
      | .error e => .error e
      | .ok _ =>
        .ok (({ a with favorites := a.favorites.erase p.port }).set_status
          ("Removed " ++ toString p.port ++ " from favorites") o.now)
    else
      match o.configOp with
      | .error e => .error e
      | .ok _ =>
        .ok (({ a with favorites := insert p.port a.favorites }).set_status
          ("Added " ++ toString p.port ++ " to favorites") o.now)

/-- app.rs lines 154-168: `App::toggle_watch`, symmetric to
`toggle_favorite` over the watched snapshot. -/
def App.toggle_watch (a : App) (o : StepOracle) : Except Error App :=
  match a.selected_port with
  | none => .ok a
  | some p =>
    if p.port ∈ a.watched then
      match o.configOp with
      | .error e => .error e
      | .ok _ =>
        .ok (({ a with watched := a.watched.erase p.port }).set_status
          ("Stopped watching " ++ toString p.port) o.now)
    else
      match o.configOp with
      | .error e => .error e
      | .ok _ =>
        .ok (({ a with watched := insert p.port a.watched }).set_status
          ("Now watching " ++ toString p.port) o.now)

/-- app.rs lines 170-173: `App::start_search` enters entry mode and clears
the query. -/
def App.start_search (a : App) : App :=
  { a with searching := true, search_query := "" }

/-- app.rs lines 175-177: `App::end_search` leaves entry mode, keeping the
query. -/
def App.end_search (a : App) : App := { a with searching := false }

/-- app.rs lines 179-181: `App::is_searching`. -/
def App.is_searching (a : App) : Bool := a.searching

/-- app.rs lines 183-186: `App::search_input` appends a character and resets
the selection to 0. -/
def App.search_input (a : App) (c : Char) : App :=
  { a with search_query := a.search_query.push c, selected := 0 }

/-- app.rs lines 188-191: `App::search_backspace` drops the last character
and resets the selection to 0. -/
def App.search_backspace (a : App) : App :=
  { a with search_query := ⟨a.search_query.data.dropLast⟩, selected := 0 }

/-- Key events of tui/mod.rs `run_app`, abstracted from crossterm key codes
(only pressed keys reach the handler). -/
inductive KeyCode where
  | charOf (c : Char)
  | escape
  | down
  | up
  | del
  | enter
  | backspace
  | otherKey
deriving DecidableEq

/-- Result of one control-loop iteration: continue with a new state, leave
the loop normally (the `q`/Esc arm returns `Ok(())`), or terminate the
session with an error (a `?` propagated out of `run_app`). -/
inductive StepResult where
  | cont (a : App)
  | quitLoop
  | failed (e : Error)
deriving DecidableEq

/-- Lift of the `?` operator at the `run_app` boundary: an `Err` from an action
becomes session termination. -/
def exceptToStep : Except Error App → StepResult
  | .ok a => .cont a
  | .error e => .failed e

/-- tui/mod.rs lines 41-77: one iteration of `run_app` after the draw —
dispatch at most one key event through the match arms in source order (note
the search-input arms come last and are guarded by `is_searching`), then
apply the automatic refresh when `should_refresh` holds.  Errors from
`refresh`, `kill_selected`, `toggle_favorite` and `toggle_watch` propagate
via `?` and end the session. -/
def runStep (a : App) (ev : Option KeyCode) (o : StepOracle) : StepResult :=
  let afterKey : StepResult :=
    match ev with
    | none => .cont a
    | some k =>
      if k = KeyCode.charOf 'q' ∨ k = KeyCode.escape then .quitLoop
      else if k = KeyCode.charOf 'r' then
        exceptToStep (a.refresh o.scan o.favs o.watchedL o.now)
      else if k = KeyCode.charOf 'j' ∨ k = KeyCode.down then .cont a.next
      else if k = KeyCode.charOf 'k' ∨ k = KeyCode.up then .cont a.previous
      else if k = KeyCode.charOf 'g' then .cont a.first
      else if k = KeyCode.charOf 'G' then .cont a.last
      else if k = KeyCode.charOf 'x' ∨ k = KeyCode.del then exceptToStep (a.kill_selected o)
      else if k = KeyCode.charOf 'f' then exceptToStep (a.toggle_favorite o)
      else if k = KeyCode.charOf 'w' then exceptToStep (a.toggle_watch o)
      else if k = KeyCode.charOf '/' then .cont a.start_search
      else if k = KeyCode.enter then .cont (if a.is_searching then a.end_search else a)
      else
        match k with
        | .charOf c => .cont (if a.is_searching then a.search_input c else a)
        | .backspace => .cont (if a.is_searching then a.search_backspace else a)
        | _ => .cont a
  match afterKey with
  | .cont a2 =>
    if a2.should_refresh o.now then exceptToStep (a2.refresh o.scan o.favs o.watchedL o.now)
    else .cont a2
  | r => r

/-- Concrete record used in witnesses, from the port_filter.rs tests. -/
def portNode : PortInfo :=
  { port := 3000, pid := 1234, process_name := "node", address := "*", user := "user",
    command := "node server.js", fd := "19u" }

/-- Concrete record used in witnesses, from the port_filter.rs tests. -/
def portNginx : PortInfo :=
  { port := 80, pid := 1, process_name := "nginx", address := "*", user := "root",
    command := "nginx", fd := "6u" }

/-- A concrete session state with a two-record table and the cursor on the
first record. -/
def exApp : App :=
  { ports := [portNode, portNginx]
    favorites := ∅
    watched := ∅
    selected := 0
    search_query := ""
    searching := false
    status_message := none
    last_refresh := 0
    killer := ProcessKiller.new }

/-- A concrete session state whose cursor index is about to fall out of
range: the next refresh will shrink the table below index 2. -/
def exStaleApp : App :=
  { ports := [portNode, portNginx]
    favorites := ∅
    watched := ∅
    selected := 2
    search_query := ""
    searching := false
    status_message := none
    last_refresh := 0
    killer := ProcessKiller.new }

/-- A concrete session state with an empty table and a non-zero cursor
index (such states arise because `refresh` leaves the cursor in place when
the view empties). -/
def exEmptyApp : App :=
  { ports := []
    favorites := ∅
    watched := ∅
    selected := 2
    search_query := ""
    searching := false
    status_message := none
    last_refresh := 0
    killer := ProcessKiller.new }

/-- The state produced by refreshing `exStaleApp` onto the one-record
table. -/
def exRefreshedApp : App :=
  { ports := [portNode]
    favorites := ∅
    watched := ∅
    selected := 0
    search_query := ""
    searching := false
    status_message := some ("Refreshed", 50)
    last_refresh := 50
    killer := ProcessKiller.new }

/-- Helper: with a process absent (every signal returns ESRCH), `kill`
returns `Ok false` for both stages. -/
theorem kill_of_esrch (os : Nat → Signal → SignalOutcome) (pid : Nat)
    (h : ∀ s, os pid s = SignalOutcome.esrch) (force : Bool) :
    ProcessKiller.kill os pid force = Except.ok false := by
  simp [ProcessKiller.kill, h]

/-- C6: on unix, `kill(pid, force)` returns `Ok(true)` when the OS accepts
the signal, `Ok(false)` on ESRCH (absent process treated as a successful
no-op), a `PermissionDenied` error on EPERM, and a `KillFailed` error
carrying the OS-reported reason for any other errno. -/
theorem kill_unix_outcome_classification (os : Nat → Signal → SignalOutcome)
    (pid : Nat) (force : Bool) :
    (os pid (sigOf force) = SignalOutcome.accepted →
      ProcessKiller.kill os pid force = Except.ok true)
    ∧ (os pid (sigOf force) = SignalOutcome.esrch →
      ProcessKiller.kill os pid force = Except.ok false)
    ∧ (os pid (sigOf force) = SignalOutcome.eperm →
      ProcessKiller.kill os pid force =
        Except.error (Error.PermissionDenied ("Permission denied to kill process " ++ toString pid)))
    ∧ (∀ e, os pid (sigOf force) = SignalOutcome.errnoOther e →
      ProcessKiller.kill os pid force = Except.error (Error.KillFailed pid e)) := by
  refine ⟨fun h => ?_, fun h => ?_, fun h => ?_, fun e h => ?_⟩ <;>
    simp [ProcessKiller.kill, h]

/-- Witness for C6 at concrete inputs. -/
theorem kill_unix_outcome_classification_witness :
    ProcessKiller.kill (fun _ _ => SignalOutcome.esrch) 9 false = Except.ok false
    ∧ ProcessKiller.kill (fun _ _ => SignalOutcome.eperm) 9 true =
        Except.error (Error.PermissionDenied ("Permission denied to kill process " ++ toString 9)) :=
  ⟨(kill_unix_outcome_classification (fun _ _ => SignalOutcome.esrch) 9 false).2.1 rfl,
   (kill_unix_outcome_classification (fun _ _ => SignalOutcome.eperm) 9 true).2.2.1 rfl⟩

/-- C3: `kill_gracefully` sends the graceful signal first; it sleeps the
configured grace period (500 ms by default) exactly when stage 1 returned
`Ok true`; whenever stage 1 returned `Ok` (true or false) the SIGKILL stage
is still issued and its result is returned; and for a pid whose process does
not exist (ESRCH on every signal) the whole protocol returns `Ok false`. -/
theorem kill_gracefully_protocol (k : ProcessKiller) (os : Nat → Signal → SignalOutcome)
    (pid : Nat) :
    ProcessKiller.new.grace_period = 500
    ∧ (k.kill_gracefully os pid).2.head? = some (KillEvent.signalSent pid Signal.SIGTERM)
    ∧ ((KillEvent.slept k.grace_period ∈ (k.kill_gracefully os pid).2) ↔
        ProcessKiller.kill os pid false = Except.ok true)
    ∧ (∀ b, ProcessKiller.kill os pid false = Except.ok b →
        KillEvent.signalSent pid Signal.SIGKILL ∈ (k.kill_gracefully os pid).2
          ∧ (k.kill_gracefully os pid).1 = ProcessKiller.kill os pid true)
    ∧ ((∀ s, os pid s = SignalOutcome.esrch) →
        (k.kill_gracefully os pid).1 = Except.ok false) := by
  refine ⟨rfl, ?_, ?_, ?_, ?_⟩
  · cases h : ProcessKiller.kill os pid false with
    | error e => simp [ProcessKiller.kill_gracefully, h]
    | ok b => cases b <;> simp [ProcessKiller.kill_gracefully, h]
  · cases h : ProcessKiller.kill os pid false with
    | error e => simp [ProcessKiller.kill_gracefully, h]
    | ok b => cases b <;> simp [ProcessKiller.kill_gracefully, h]
  · intro b h
    cases b <;> simp [ProcessKiller.kill_gracefully, h]
  · intro h
    simp [ProcessKiller.kill_gracefully, kill_of_esrch os pid h]

/-- Witness for C3 at concrete inputs: a pid with no process. -/
theorem kill_gracefully_protocol_witness :
    (ProcessKiller.new.kill_gracefully (fun _ _ => SignalOutcome.esrch) 999999999).1 =
      Except.ok false :=
  (kill_gracefully_protocol ProcessKiller.new (fun _ _ => SignalOutcome.esrch)
    999999999).2.2.2.2 (fun _ => rfl)

/-- C10: when stage 1 of `kill_gracefully` fails (for example EPERM or an
unexpected errno), the error is returned immediately: no grace-period sleep
occurs and the SIGKILL stage is never issued. -/
theorem kill_gracefully_stage1_error (k : ProcessKiller) (os : Nat → Signal → SignalOutcome)
    (pid : Nat) (e : Error) (h : ProcessKiller.kill os pid false = Except.error e) :
    k.kill_gracefully os pid = (Except.error e, [KillEvent.signalSent pid Signal.SIGTERM])
    ∧ (∀ ms, KillEvent.slept ms ∉ (k.kill_gracefully os pid).2)
    ∧ KillEvent.signalSent pid Signal.SIGKILL ∉ (k.kill_gracefully os pid).2 := by
  refine ⟨?_, ?_, ?_⟩ <;> simp [ProcessKiller.kill_gracefully, h]

/-- Witness for C10 at concrete inputs: stage 1 rejected with EPERM. -/
theorem kill_gracefully_stage1_error_witness :
    ProcessKiller.new.kill_gracefully (fun _ _ => SignalOutcome.eperm) 7 =
      (Except.error (Error.PermissionDenied ("Permission denied to kill process " ++ toString 7)),
       [KillEvent.signalSent 7 Signal.SIGTERM]) :=
  (kill_gracefully_stage1_error ProcessKiller.new (fun _ _ => SignalOutcome.eperm) 7 _ rfl).1

/-- C9: the windows `kill` ignores the `force` flag and always passes `/F`
to taskkill; it can never produce a `PermissionDenied` error; a tool failure
whose stderr contains "not found" or "No such process" yields `Ok false`,
and any other tool failure yields `KillFailed` carrying the stderr text. -/
theorem kill_windows_classification (run : List String → Except String CmdOutput)
    (pid : Nat) (f1 f2 : Bool) :
    ProcessKiller.kill_windows run pid f1 = ProcessKiller.kill_windows run pid f2
    ∧ "/F" ∈ taskkillArgs pid
    ∧ (∀ m, ProcessKiller.kill_windows run pid f1 ≠ Except.error (Error.PermissionDenied m))
    ∧ (∀ out, run (taskkillArgs pid) = Except.ok out → out.status_success = false →
        (strContains out.stderr "not found" || strContains out.stderr "No such process") = true →
        ProcessKiller.kill_windows run pid f1 = Except.ok false)
    ∧ (∀ out, run (taskkillArgs pid) = Except.ok out → out.status_success = false →
        (strContains out.stderr "not found" || strContains out.stderr "No such process") = false →
        ProcessKiller.kill_windows run pid f1 = Except.error (Error.KillFailed pid out.stderr)) := by
  refine ⟨rfl, by simp [taskkillArgs], ?_, ?_, ?_⟩
  · intro m
    unfold ProcessKiller.kill_windows
    cases hr : run (taskkillArgs pid) with
    | error e => simp
    | ok out =>
      by_cases hs : out.status_success = true
      · simp [hs]
      · by_cases hn : (strContains out.stderr "not found"
            || strContains out.stderr "No such process") = true
        · simp [hs, hn]
        · simp at hs hn
          simp [hs, hn]
  · intro out hr hs hn
    simp [ProcessKiller.kill_windows, hr, hs, hn]
  · intro out hr hs hn
    simp [ProcessKiller.kill_windows, hr, hs, hn]

/-- Witness for C9 at concrete inputs: taskkill reports the process absent,
and with a permission-style failure the result is `KillFailed`, not
`PermissionDenied`. -/
theorem kill_windows_classification_witness :
    ProcessKiller.kill_windows
      (fun _ => Except.ok ⟨false, "ERROR: The process with PID 77 was not found."⟩) 77 true =
      Except.ok false
    ∧ ProcessKiller.kill_windows
      (fun _ => Except.ok ⟨false, "ERROR: Access is denied."⟩) 77 false =
      Except.error (Error.KillFailed 77 "ERROR: Access is denied.") :=
  ⟨(kill_windows_classification
      (fun _ => Except.ok ⟨false, "ERROR: The process with PID 77 was not found."⟩) 77 true true).2.2.2.1
      _ rfl rfl (by decide),
   (kill_windows_classification
      (fun _ => Except.ok ⟨false, "ERROR: Access is denied."⟩) 77 false false).2.2.2.2
      _ rfl rfl (by decide)⟩

/-- Helper: an early-return guard on a boolean condition is conjunction with
its negation. -/
theorem if_bool_guard (c x : Bool) : (if c = true then false else x) = (!c && x) := by
  cases c <;> simp

/-- Helper: the negation of a strict comparison is the complementary
inclusive bound. -/
theorem not_decide_lt (a b : Nat) : (!decide (a < b)) = decide (b ≤ a) := by
  by_cases h : a < b
  · have h2 : ¬ b ≤ a := by omega
    simp [h, h2]
  · have h2 : b ≤ a := by omega
    simp [h, h2]

/-- Helper: every process type is a member of the full set. -/
theorem mem_all_process_types (t : ProcessType) : t ∈ all_process_types := by
  cases t <;> decide

/-- C4: `filter_ports` returns an order-preserving subselection of the input
(a sublist), its members are exactly the input records accepted by
`matches`, and `matches` is the conjunction, in the fixed source order, of:
the search criterion (pass when the query is empty or occurs
case-insensitively in the process name, the decimal port or the command),
the inclusive minimum bound when set, the inclusive maximum bound when set,
process-type membership (no restriction when the type set is empty), the
favorites restriction when enabled, and the watched restriction when
enabled.  All inputs are values; nothing is mutated. -/
theorem filter_ports_characterization (ports : List PortInfo) (f : PortFilter)
    (favorites : Finset Nat) (watched : List WatchedPort) :
    (filter_ports ports f favorites watched).Sublist ports
    ∧ (∀ p, p ∈ filter_ports ports f favorites watched ↔
        p ∈ ports ∧ f.matches p favorites watched = true)
    ∧ (∀ p : PortInfo, f.matches p favorites watched =
        ((f.search_text.isEmpty || p.matches_search f.search_text)
          && (match f.min_port with | some minP => decide (minP ≤ p.port) | none => true)
          && (match f.max_port with | some maxP => decide (p.port ≤ maxP) | none => true)
          && (decide (f.process_types = ∅) || decide (p.process_type ∈ f.process_types))
          && (!f.show_only_favorites || decide (p.port ∈ favorites))
          && (!f.show_only_watched || watched.any (fun w => w.port == p.port)))) := by
  refine ⟨List.filter_sublist ports, fun p => List.mem_filter, fun p => ?_⟩
  unfold PortFilter.matches
  cases hmin : f.min_port <;> cases hmax : f.max_port <;>
    simp only [if_bool_guard, not_decide_lt, Bool.not_and, Bool.not_not, Bool.and_assoc,
      Bool.and_true, Bool.true_and, Bool.not_false]

/-- Helper: the full process-type set is the universe. -/
theorem all_process_types_eq_univ : all_process_types = (Finset.univ : Finset ProcessType) := by
  decide

/-- Helper: the default filter is inactive. -/
theorem default_not_active : PortFilter.default.is_active = false := by decide

/-- C8: the default filter accepts every record whatever the favorites and
watched inputs; `reset` yields exactly the default value; and `is_active` is
true precisely when some field deviates from its default (in particular a
process-type set smaller than the full set of known types makes the filter
active). -/
theorem default_filter_and_activity (p : PortInfo) (favorites : Finset Nat)
    (watched : List WatchedPort) (f : PortFilter) :
    PortFilter.default.matches p favorites watched = true
    ∧ f.reset = PortFilter.default
    ∧ (f.is_active = true ↔ f ≠ PortFilter.default) := by
  refine ⟨?_, rfl, ?_, ?_⟩
  · simp [PortFilter.matches, PortFilter.default, mem_all_process_types]
    exact Or.inl rfl
  · intro h heq
    rw [heq, default_not_active] at h
    exact Bool.false_ne_true h
  · intro hne
    by_contra hact
    apply hne
    obtain ⟨st, mn, mx, pt, sf, sw⟩ := f
    have hfalse : (PortFilter.mk st mn mx pt sf sw).is_active = false := by
      cases hb : (PortFilter.mk st mn mx pt sf sw).is_active
      · rfl
      · exact absurd hb hact
    unfold PortFilter.is_active at hfalse
    simp only [Bool.or_eq_false_iff, Bool.not_eq_false', decide_eq_false_iff_not,
      Not] at hfalse
    obtain ⟨⟨⟨⟨⟨hse, hmin⟩, hmax⟩, hty⟩, hfav⟩, hw⟩ := hfalse
    have hminn : mn = none := by
      cases hm : mn
      · rfl
      · rw [hm] at hmin
        simp at hmin
    have hmaxn : mx = none := by
      cases hm : mx
      · rfl
      · rw [hm] at hmax
        simp at hmax
    have hty4 : ¬ pt.card < 4 := hty
    have hle : pt.card ≤ Fintype.card ProcessType := Finset.card_le_univ pt
    have hcu : Fintype.card ProcessType = 4 := rfl
    rw [hcu] at hle
    have hcard : pt.card = 4 := by omega
    have htyeq : pt = all_process_types := by
      rw [all_process_types_eq_univ]
      exact (Finset.card_eq_iff_eq_univ pt).mp (by rw [hcard, hcu])
    simp only [PortFilter.default, PortFilter.mk.injEq]
    exact ⟨(String.isEmpty_iff st).mp hse, hminn, hmaxn, htyeq, hfav, hw⟩

/-- Witness for C4 at the concrete inputs of the test scenario
of the repository. -/
theorem filter_ports_characterization_witness :
    (filter_ports [] PortFilter.default ∅ []).Sublist [] :=
  (filter_ports_characterization [] PortFilter.default ∅ []).1

/-- Witness for C8 at concrete inputs. -/
theorem default_filter_and_activity_witness :
    PortFilter.default.matches portNode ∅ [] = true :=
  (default_filter_and_activity portNode ∅ [] PortFilter.default).1

/-- Helper: changing only the selection leaves the filtered view
unchanged. -/
theorem filtered_ports_set_selected (a : App) (x : Nat) :
    ({ a with selected := x } : App).filtered_ports = a.filtered_ports := rfl

/-- Helper: setting a status message leaves the filtered view unchanged. -/
theorem filtered_ports_set_status (a : App) (m : String) (t : Nat) :
    (a.set_status m t).filtered_ports = a.filtered_ports := rfl

/-- Helper: `next` leaves the filtered view unchanged. -/
theorem next_filtered_ports (a : App) : a.next.filtered_ports = a.filtered_ports := by
  unfold App.next
  split <;> rfl

/-- Helper: one `next` step on a non-empty view advances the selection by
one, modulo the view length. -/
theorem next_selected_step (b : App) (h : 0 < b.filtered_ports.length) :
    b.next.selected = (b.selected + 1) % b.filtered_ports.length := by
  unfold App.next
  rw [if_pos h]

/-- Helper: the selection after `k` iterations of `next`, provided the view
is non-empty and the starting selection is in range. -/
theorem next_iterate_selected (a : App) (hlen : 0 < a.filtered_ports.length)
    (hsel : a.selected < a.filtered_ports.length) :
    ∀ k : Nat, (App.next^[k] a).filtered_ports = a.filtered_ports
      ∧ (App.next^[k] a).selected = (a.selected + k) % a.filtered_ports.length := by
  intro k
  induction k with
  | zero =>
    exact ⟨rfl, (Nat.mod_eq_of_lt hsel).symm⟩
  | succ n ih =>
    obtain ⟨ihf, ihs⟩ := ih
    rw [Function.iterate_succ_apply']
    have hlen2 : 0 < (App.next^[n] a).filtered_ports.length := by
      rw [ihf]
      exact hlen
    constructor
    · rw [next_filtered_ports, ihf]
    · rw [next_selected_step _ hlen2, ihf, ihs, Nat.mod_add_mod, Nat.add_assoc]

/-- C5 counterexample: with an empty filtered view and a non-zero cursor,
`first()` is not a no-op — it rewrites the cursor to 0 and so changes the
session state, contradicting the claim that all four navigation operations
leave the state unchanged on an empty view. -/
theorem first_on_empty_view_not_noop :
    exEmptyApp.filtered_ports.length = 0
    ∧ exEmptyApp.selected = 2
    ∧ (App.first exEmptyApp).selected = 0
    ∧ App.first exEmptyApp ≠ exEmptyApp := by
  refine ⟨rfl, rfl, rfl, ?_⟩
  intro h
  have h2 : (App.first exEmptyApp).selected = exEmptyApp.selected := by rw [h]
  simp [App.first, exEmptyApp] at h2

/-- C5 (amended): on a non-empty filtered view of length `n` with the
cursor in range, `next` applied `n` times returns the selection to its
start, `next` from the last entry wraps to the first, and `previous` from
the first wraps to the last; on an empty view `next`, `previous` and `last`
leave the state unchanged, while `first` always sets the selection to 0 (a
no-op only when the selection is already 0). -/
theorem navigation_wrapping (a : App) (hlen : 0 < a.filtered_ports.length)
    (hsel : a.selected < a.filtered_ports.length) :
    (App.next^[a.filtered_ports.length] a).selected = a.selected
    ∧ (a.selected = a.filtered_ports.length - 1 → a.next.selected = 0)
    ∧ (a.selected = 0 → a.previous.selected = a.filtered_ports.length - 1)
    ∧ (∀ b : App, b.filtered_ports.length = 0 →
        b.next = b ∧ b.previous = b ∧ b.last = b ∧ b.first.selected = 0
          ∧ (b.selected = 0 → b.first = b)) := by
  refine ⟨?_, ?_, ?_, ?_⟩
  · rw [(next_iterate_selected a hlen hsel a.filtered_ports.length).2]
    rw [Nat.add_mod_right]
    exact Nat.mod_eq_of_lt hsel
  · intro h
    rw [next_selected_step a hlen, h, Nat.sub_add_cancel hlen, Nat.mod_self]
  · intro h
    unfold App.previous
    rw [if_pos hlen]
    simp [h]
  · intro b hb
    have hnb : ¬ 0 < b.filtered_ports.length := by omega
    refine ⟨?_, ?_, ?_, rfl, ?_⟩
    · unfold App.next
      rw [if_neg hnb]
    · unfold App.previous
      rw [if_neg hnb]
    · unfold App.last
      rw [if_neg hnb]
    · intro h0
      unfold App.first
      obtain ⟨p1, p2, p3, p4, p5, p6, p7, p8, p9⟩ := b
      simp only at h0
      rw [h0]

/-- Witness for the amended C5 at concrete inputs: a two-record view. -/
theorem navigation_wrapping_witness :
    (App.next^[exApp.filtered_ports.length] exApp).selected = exApp.selected
    ∧ exApp.previous.selected = exApp.filtered_ports.length - 1 :=
  ⟨(navigation_wrapping exApp (by decide) (by decide)).1,
   (navigation_wrapping exApp (by decide) (by decide)).2.2.1 rfl⟩

/-- C7: a status message set at time `t` is returned by the getter exactly
while strictly less than 3000 ms have elapsed, and reported absent from
3000 ms onward; the stored message itself is untouched by queries (the
getter is a pure read of the `(text, timestamp)` pair — no background
mechanism exists in the model or the source). -/
theorem status_message_expiry (a : App) (msg : String) (t q : Nat) (_hq : t ≤ q) :
    ((a.set_status msg t).get_status q = some msg ↔ q - t < 3000)
    ∧ ((a.set_status msg t).get_status q = none ↔ 3000 ≤ q - t)
    ∧ (a.set_status msg t).status_message = some (msg, t) := by
  have hs : (a.set_status msg t).get_status q = if q - t < 3000 then some msg else none := rfl
  refine ⟨?_, ?_, rfl⟩
  · rw [hs]
    by_cases hq : q - t < 3000
    · rw [if_pos hq]
      exact ⟨fun _ => hq, fun _ => rfl⟩
    · rw [if_neg hq]
      exact ⟨fun hx => Option.noConfusion hx, fun hx => absurd hx hq⟩
  · rw [hs]
    by_cases hq : q - t < 3000
    · rw [if_pos hq]
      exact ⟨fun hx => Option.noConfusion hx, fun hx => absurd hq (by omega)⟩
    · rw [if_neg hq]
      exact ⟨fun _ => by omega, fun _ => rfl⟩

/-- Witness for C7 at concrete times: visible at 2900 ms, absent at
3100 ms. -/
theorem status_message_expiry_witness :
    (exApp.set_status "Refreshed" 0).get_status 2900 = some "Refreshed"
    ∧ (exApp.set_status "Refreshed" 0).get_status 3100 = none :=
  ⟨(status_message_expiry exApp "Refreshed" 0 2900 (by omega)).1.mpr (by omega),
   (status_message_expiry exApp "Refreshed" 0 3100 (by omega)).2.1.mpr (by omega)⟩

/-- C2 counterexample: refreshing into an empty filtered view leaves the
cursor where it was (here 2) — the claim says it becomes 0 when the new
length is 0, and that the cursor always ends inside `[0, L)`. -/
theorem refresh_to_empty_view_keeps_selection :
    (exStaleApp.refresh (Except.ok []) (Except.ok ∅) (Except.ok []) 100).map App.selected
      = Except.ok 2
    ∧ (exStaleApp.refresh (Except.ok []) (Except.ok ∅) (Except.ok []) 100).map
        (fun b => b.filtered_ports.length) = Except.ok 0
    ∧ (2 : Nat) ≠ 0 :=
  ⟨rfl, rfl, by omega⟩

/-- Helper: the clamp step keeps the filtered view, leaves the cursor in
place when it is in range or the view is empty, and otherwise moves it to
the last index. -/
theorem clampSelection_spec (b : App) :
    (clampSelection b).filtered_ports = b.filtered_ports
    ∧ (b.filtered_ports.length = 0 → (clampSelection b).selected = b.selected)
    ∧ (b.selected < b.filtered_ports.length → (clampSelection b).selected = b.selected)
    ∧ (0 < b.filtered_ports.length → b.filtered_ports.length ≤ b.selected →
        (clampSelection b).selected = b.filtered_ports.length - 1)
    ∧ (0 < b.filtered_ports.length →
        (clampSelection b).selected < b.filtered_ports.length) := by
  unfold clampSelection
  by_cases hc : b.selected ≥ b.filtered_ports.length ∧ b.filtered_ports.length > 0
  · rw [if_pos hc]
    refine ⟨rfl, fun h0 => absurd h0 (by omega), fun hin => absurd hin (by omega),
      fun _ _ => rfl, fun _ => ?_⟩
    show b.filtered_ports.length - 1 < b.filtered_ports.length
    omega
  · rw [if_neg hc]
    push_neg at hc
    refine ⟨rfl, fun _ => rfl, fun _ => rfl, fun h1 h2 => absurd h1 (by have := hc h2; omega),
      fun h1 => ?_⟩
    rcases Nat.lt_or_ge b.selected b.filtered_ports.length with h | h
    · exact h
    · exact absurd h1 (by have := hc h; omega)

/-- C2 (amended): after a successful `refresh` with new filtered length
`L`: when `L > 0` and the prior cursor was out of range it becomes `L - 1`;
when the prior cursor was in range it is unchanged; when `L = 0` it is
unchanged (and may therefore remain out of range); whenever `L > 0` the
final cursor is strictly below `L`. -/
theorem refresh_clamps_selection (a : App) (ports : List PortInfo) (favs : Finset Nat)
    (wl : List WatchedPort) (now : Nat) (a' : App)
    (h : a.refresh (Except.ok ports) (Except.ok favs) (Except.ok wl) now = Except.ok a') :
    (a'.filtered_ports.length = 0 → a'.selected = a.selected)
    ∧ (a.selected < a'.filtered_ports.length → a'.selected = a.selected)
    ∧ (0 < a'.filtered_ports.length → a'.filtered_ports.length ≤ a.selected →
        a'.selected = a'.filtered_ports.length - 1)
    ∧ (0 < a'.filtered_ports.length → a'.selected < a'.filtered_ports.length) := by
  have h2 : a' = (clampSelection (a.withScan ports favs wl now)).set_status "Refreshed" now := by
    have h3 : a.refresh (Except.ok ports) (Except.ok favs) (Except.ok wl) now =
        Except.ok ((clampSelection (a.withScan ports favs wl now)).set_status "Refreshed" now) :=
      rfl
    rw [h3, Except.ok.injEq] at h
    exact h.symm
  obtain ⟨hf, hempty, hin, hout, hbound⟩ := clampSelection_spec (a.withScan ports favs wl now)
  have hsel : a'.selected = (clampSelection (a.withScan ports favs wl now)).selected := by
    rw [h2]
    rfl
  have hflt : a'.filtered_ports = (a.withScan ports favs wl now).filtered_ports := by
    rw [h2, filtered_ports_set_status, hf]
  have hsel0 : (a.withScan ports favs wl now).selected = a.selected := rfl
  refine ⟨fun h0 => ?_, fun h1 => ?_, fun h1 h2b => ?_, fun h1 => ?_⟩
  · rw [hsel, hempty (by rw [← hflt]; exact h0), hsel0]
  · rw [hsel, hin (by rw [hsel0, ← hflt]; exact h1), hsel0]
  · rw [hsel, hout (by rw [← hflt]; exact h1) (by rw [hsel0, ← hflt]; exact h2b), hflt]
  · rw [hsel, hflt]
    exact hbound (by rw [← hflt]; exact h1)

/-- Witness for the amended C2 at a concrete refresh that shrinks the view
below the prior cursor: the cursor moves to the new last index. -/
theorem refresh_clamps_selection_witness :
    exRefreshedApp.selected = exRefreshedApp.filtered_ports.length - 1 :=
  (refresh_clamps_selection exStaleApp [portNode] ∅ [] 50 exRefreshedApp rfl).2.2.1
    (by decide) (by decide)

/-- Helper: dispatching the kill key reduces `runStep` to `kill_selected`
followed by the auto-refresh check (all earlier match arms reject the `x`
key). -/
theorem runStep_kill_key (a : App) (o : StepOracle) :
    runStep a (some (KeyCode.charOf 'x')) o =
      match exceptToStep (a.kill_selected o) with
      | .cont a2 =>
        if a2.should_refresh o.now then exceptToStep (a2.refresh o.scan o.favs o.watchedL o.now)
        else .cont a2
      | r => r := rfl

/-- Helper: setting a status message does not change the refresh-staleness
test. -/
theorem should_refresh_set_status (a : App) (m : String) (t now : Nat) :
    (a.set_status m t).should_refresh now = a.should_refresh now := rfl

/-- C1 counterexample: one failing action does terminate the session.  With
the scanner failing, the `refresh` error of the `r` key propagates through the
`?` in `run_app` and the loop ends with that error instead of a status
message. -/
theorem refresh_error_terminates_session :
    runStep exApp (some (KeyCode.charOf 'r'))
      { os := fun _ _ => SignalOutcome.accepted
        scan := Except.error (Error.UnsupportedPlatform "port scanning unsupported")
        favs := Except.ok ∅
        watchedL := Except.ok []
        configOp := Except.ok ()
        now := 100 } =
      StepResult.failed (Error.UnsupportedPlatform "port scanning unsupported") := rfl

/-- C1 (amended): a failure of the kill itself is caught inside
`kill_selected` and converted into a status message, and the loop continues
— but this covers only `kill_gracefully` errors; errors from a scan/refresh
(including the refresh that follows a successful kill) and from config
add/remove operations propagate out of the control loop and terminate the
session. -/
theorem kill_failure_not_fatal (a : App) (o : StepOracle) (p : PortInfo)
    (hsel : a.selected_port = some p)
    (hnr : a.should_refresh o.now = false) :
    (∀ e, (a.killer.kill_gracefully o.os p.pid).1 = Except.error e →
      runStep a (some (KeyCode.charOf 'x')) o =
        StepResult.cont (a.set_status ("Failed to kill: " ++ e.message) o.now))
    ∧ ((a.killer.kill_gracefully o.os p.pid).1 = Except.ok false →
      runStep a (some (KeyCode.charOf 'x')) o =
        StepResult.cont
          (a.set_status ("Process " ++ toString p.pid ++ " already terminated") o.now)) := by
  constructor
  · intro e he
    have hks : a.kill_selected o =
        Except.ok (a.set_status ("Failed to kill: " ++ e.message) o.now) := by
      unfold App.kill_selected
      rw [hsel]
      simp only [he]
    rw [runStep_kill_key, hks]
    show (if (a.set_status ("Failed to kill: " ++ e.message) o.now).should_refresh o.now
        then _ else _ : StepResult) = _
    rw [should_refresh_set_status, hnr]
    rfl
  · intro he
    have hks : a.kill_selected o =
        Except.ok (a.set_status ("Process " ++ toString p.pid ++ " already terminated") o.now) := by
      unfold App.kill_selected
      rw [hsel]
      simp only [he]
    rw [runStep_kill_key, hks]
    show (if (a.set_status ("Process " ++ toString p.pid ++ " already terminated")
          o.now).should_refresh o.now then _ else _ : StepResult) = _
    rw [should_refresh_set_status, hnr]
    rfl

/-- Witness for the amended C1 at concrete inputs: a permission-denied kill
sets a status message and the session continues. -/
theorem kill_failure_not_fatal_witness :
    runStep exApp (some (KeyCode.charOf 'x'))
      { os := fun _ _ => SignalOutcome.eperm
        scan := Except.ok []
        favs := Except.ok ∅
        watchedL := Except.ok []
        configOp := Except.ok ()
        now := 100 } =
      StepResult.cont (exApp.set_status
        ("Failed to kill: " ++
          (Error.PermissionDenied
            ("Permission denied to kill process " ++ toString portNode.pid)).message) 100) :=
  (kill_failure_not_fatal exApp
    { os := fun _ _ => SignalOutcome.eperm
      scan := Except.ok []
      favs := Except.ok ∅
      watchedL := Except.ok []
      configOp := Except.ok ()
      now := 100 } portNode rfl rfl).1 _ rfl
